import Mathlib

/-!
Verification of the IoT protocol simulator against its specification.

Each section shallowly embeds one part of the backend source
(src/backend/src/protocols/modbus.py, src/backend/src/bridge/engine.py,
src/backend/src/bridge/rules.py, src/backend/src/tools/fault_injector.py,
src/backend/src/tools/capturer.py) as executable Lean definitions, and the
claim theorems at the end of each section settle the specification claims
against those definitions.
-/

set_option maxRecDepth 8192

namespace IoTSim

namespace Modbus

/-- A wire byte string is modelled as a list of naturals (each byte below 256
by construction of the inputs we consider). -/
abbrev Bytes := List Nat

/-- Python `pdu[i]` on a bytes object: raises IndexError when out of range,
modelled by `Option`. -/
def getByte (b : Bytes) (i : Nat) : Option Nat := b[i]?

/-- Python `struct.unpack(">H", b[i:i+2])`: big-endian u16; raises when the
slice is short, modelled by `Option`. -/
def getU16 (b : Bytes) (i : Nat) : Option Nat :=
  match b[i]?, b[i + 1]? with
  | some hi, some lo => some (hi * 256 + lo)
  | _, _ => none

/-- Python `struct.pack(">H", v)`: raises for v outside u16 range. -/
def pack16 (v : Nat) : Option Bytes :=
  if v < 65536 then some [v / 256, v % 256] else none

/-- ModbusDevice (modbus.py lines 68-84).  The Python banks are dicts read
with `.get(addr, default)`; a bank is therefore modelled as the total
function address -> value it denotes, with the dict default built in
(0 for registers, False for bits).  Dict assignment becomes pointwise
function update. -/
structure ModbusDevice where
  unitId : Nat
  name : String
  coils : Nat → Bool
  discreteInputs : Nat → Bool
  holdingRegisters : Nat → Nat
  inputRegisters : Nat → Nat

/-- The server's `devices` dict (unit id -> device), as an association list. -/
abbrev Devices := List (Nat × ModbusDevice)

def lookupDevice (s : Devices) (uid : Nat) : Option ModbusDevice :=
  (s.find? (fun p => p.1 == uid)).map Prod.snd

/-- Python mutates the device object held in the dict; modelled by replacing
the entry for the unit id. -/
def updateDevice (s : Devices) (uid : Nat) (d : ModbusDevice) : Devices :=
  s.map (fun p => if p.1 == uid then (p.1, d) else p)

/-- The inner loop of the bit-packed read responses (modbus.py lines
225-231 and 241-247): byte `k` ors together `1 << bit` for each set bit,
bit = 0..7, reading position `k*8 + bit`. -/
def packByte (bits : Nat → Bool) (k : Nat) : Nat :=
  (List.range 8).foldl
    (fun acc bit => if bits (k * 8 + bit) then acc ||| (1 <<< bit) else acc) 0

/-- `_read_coils` (FC01, modbus.py lines 214-233).  The Python code first
builds `coils = [device.coils.get(i, False) for i in range(start, start+q)]`
and then packs bit `idx = k*8 + bit` only when `idx < len(coils)`, so bits
beyond the quantity are zero.  `bytearray([0x01, byte_count])` raises when
byte_count exceeds 255, hence the guard. -/
def readCoils (d : ModbusDevice) (pdu : Bytes) : Option (ModbusDevice × Bytes) := do
  let start ← getU16 pdu 1
  let q ← getU16 pdu 3
  let byteCount := (q + 7) / 8
  if byteCount ≥ 256 then none
  else
    some (d, 0x01 :: byteCount ::
      (List.range byteCount).map
        (packByte (fun idx => decide (idx < q) && d.coils (start + idx))))

/-- `_read_discrete_inputs` (FC02, modbus.py lines 235-249).  Unlike FC01
this loop has no `idx < quantity` bound: it reads the bank up to the byte
boundary. -/
def readDiscreteInputs (d : ModbusDevice) (pdu : Bytes) : Option (ModbusDevice × Bytes) := do
  let start ← getU16 pdu 1
  let q ← getU16 pdu 3
  let byteCount := (q + 7) / 8
  if byteCount ≥ 256 then none
  else
    some (d, 0x02 :: byteCount ::
      (List.range byteCount).map (packByte (fun idx => d.discreteInputs (start + idx))))

/-- `_read_holding_registers` (FC03, modbus.py lines 251-261).
`bytearray([0x03, byte_count])` raises for byte_count > 255, and
`struct.pack(">H", value)` raises for out-of-range stored values. -/
def readHoldingRegisters (d : ModbusDevice) (pdu : Bytes) : Option (ModbusDevice × Bytes) := do
  let start ← getU16 pdu 1
  let q ← getU16 pdu 3
  let byteCount := q * 2
  if byteCount ≥ 256 then none
  else
    let vals ← (List.range q).mapM (fun i => pack16 (d.holdingRegisters (start + i)))
    some (d, 0x03 :: byteCount :: vals.flatten)

/-- `_read_input_registers` (FC04, modbus.py lines 263-273). -/
def readInputRegisters (d : ModbusDevice) (pdu : Bytes) : Option (ModbusDevice × Bytes) := do
  let start ← getU16 pdu 1
  let q ← getU16 pdu 3
  let byteCount := q * 2
  if byteCount ≥ 256 then none
  else
    let vals ← (List.range q).mapM (fun i => pack16 (d.inputRegisters (start + i)))
    some (d, 0x04 :: byteCount :: vals.flatten)

/-- `_write_single_coil` (FC05, modbus.py lines 275-291): the coil is set to
`value == 0xFF00` and the request PDU is echoed back. -/
def writeSingleCoil (d : ModbusDevice) (pdu : Bytes) : Option (ModbusDevice × Bytes) := do
  let addr ← getU16 pdu 1
  let value ← getU16 pdu 3
  let coilValue := value == 0xFF00
  some ({ d with coils := fun j => if j = addr then coilValue else d.coils j }, pdu)

/-- `_write_single_register` (FC06, modbus.py lines 293-308): stores the
value at the address and echoes the request PDU. -/
def writeSingleRegister (d : ModbusDevice) (pdu : Bytes) : Option (ModbusDevice × Bytes) := do
  let addr ← getU16 pdu 1
  let value ← getU16 pdu 3
  some ({ d with holdingRegisters := fun j => if j = addr then value else d.holdingRegisters j },
    pdu)

/-- `_write_multiple_coils` (FC15, modbus.py lines 310-324).  `pdu[5]` is
read (IndexError -> failure) and each coil i takes bit `i % 8` of byte
`pdu[6 + i / 8]`.  The response is the first five request bytes. -/
def writeMultipleCoils (d : ModbusDevice) (pdu : Bytes) : Option (ModbusDevice × Bytes) := do
  let start ← getU16 pdu 1
  let q ← getU16 pdu 3
  let _byteCount ← getByte pdu 5
  let coils ← (List.range q).foldlM
    (fun (c : Nat → Bool) i => do
      let byte ← getByte pdu (5 + 1 + i / 8)
      some (fun j => if j = start + i then (byte &&& (1 <<< (i % 8))) != 0 else c j))
    d.coils
  some ({ d with coils := coils }, pdu.take 5)

/-- `_write_multiple_registers` (FC16, modbus.py lines 326-336). -/
def writeMultipleRegisters (d : ModbusDevice) (pdu : Bytes) : Option (ModbusDevice × Bytes) := do
  let start ← getU16 pdu 1
  let q ← getU16 pdu 3
  let regs ← (List.range q).foldlM
    (fun (r : Nat → Nat) i => do
      let v ← getU16 pdu (6 + i * 2)
      some (fun j => if j = start + i then v else r j))
    d.holdingRegisters
  some ({ d with holdingRegisters := regs }, pdu.take 5)

/-- `_diagnostics` (FC08, modbus.py lines 338-347): echo for sub-function 0. -/
def diagnostics (d : ModbusDevice) (pdu : Bytes) : Option (ModbusDevice × Bytes) := do
  let subFunc ← getU16 pdu 1
  if subFunc = 0 then some (d, [0x08, 0x00, 0x00, 0x00] ++ pdu.drop 3)
  else some (d, [0x08, 0x00, 0x00, 0x00])

/-- `_process_request` (modbus.py lines 175-212).  Empty PDU -> no response;
unknown unit id -> exception 0x0B; the nine handled function codes are
dispatched, with any exception raised by a handler (modelled by `none`)
turned into exception code 0x04; any other function code -> exception 0x01. -/
def processRequest (s : Devices) (uid : Nat) (pdu : Bytes) : Devices × Option Bytes :=
  match pdu with
  | [] => (s, none)
  | fc :: _ =>
    match lookupDevice s uid with
    | none => (s, some [0x80 ||| fc, 0x0B])
    | some device =>
      let handled : Option (Option (ModbusDevice × Bytes)) :=
        if fc = 0x01 then some (readCoils device pdu)
        else if fc = 0x02 then some (readDiscreteInputs device pdu)
        else if fc = 0x03 then some (readHoldingRegisters device pdu)
        else if fc = 0x04 then some (readInputRegisters device pdu)
        else if fc = 0x05 then some (writeSingleCoil device pdu)
        else if fc = 0x06 then some (writeSingleRegister device pdu)
        else if fc = 0x0F then some (writeMultipleCoils device pdu)
        else if fc = 0x10 then some (writeMultipleRegisters device pdu)
        else if fc = 0x08 then some (diagnostics device pdu)
        else none
      match handled with
      | none => (s, some [0x80 ||| fc, 0x01])
      | some none => (s, some [0x80 ||| fc, 0x04])
      | some (some (d2, resp)) => (updateDevice s uid d2, some resp)

/-- One MBAP-framed request or response (modbus.py lines 138-161). -/
structure MBAPFrame where
  transactionId : Nat
  protocolId : Nat
  length : Nat
  unitId : Nat
  pdu : Bytes
deriving DecidableEq

/-- One iteration of `_handle_client` (modbus.py lines 131-163): process the
PDU and, when a response PDU exists, frame it with the transaction id,
protocol id and unit id of the request and length = len(pdu) + 1. -/
def handleRequest (s : Devices) (req : MBAPFrame) : Devices × Option MBAPFrame :=
  match processRequest s req.unitId req.pdu with
  | (s2, none) => (s2, none)
  | (s2, some rp) =>
    (s2, some ⟨req.transactionId, req.protocolId, rp.length + 1, req.unitId, rp⟩)

/-- Evaluating the bit-packing fold: bit `i` of the accumulated byte is the
source bit when `i` lies in the folded range, and the starting
accumulator's bit otherwise. -/
theorem orFold_testBit (f : Nat → Bool) :
    ∀ (n s acc i : Nat),
      ((List.range' s n).foldl (fun a b => if f b then a ||| (1 <<< b) else a) acc).testBit i
        = if s ≤ i ∧ i < s + n then f i || acc.testBit i else acc.testBit i := by
  intro n
  induction n with
  | zero =>
    intro s acc i
    have h : ¬(s ≤ i ∧ i < s) := by omega
    simp [h]
  | succ n ih =>
    intro s acc i
    rw [List.range'_succ, List.foldl_cons, ih]
    have hbit : (if f s then acc ||| (1 <<< s) else acc).testBit i
        = (f s && decide (s = i) || acc.testBit i) := by
      by_cases hfs : f s
      · simp [hfs, Nat.one_shiftLeft, Nat.testBit_two_pow, Bool.or_comm]
      · simp [hfs]
    rw [hbit]
    by_cases h1 : s + 1 ≤ i ∧ i < s + 1 + n <;>
      by_cases h2 : s ≤ i ∧ i < s + (n + 1)
    · have hne : s ≠ i := by omega
      simp [h1, h2, hne]
    · exact absurd ⟨by omega, by omega⟩ h2
    · have hse : s = i := by omega
      subst hse
      simp [h1, h2]
    · have hne : s ≠ i := by omega
      simp [h1, h2, hne]

/-- Bit `i` (i < 8) of packed byte `k` is the source bit at `k*8 + i`. -/
theorem packByte_testBit (bits : Nat → Bool) (k i : Nat) (h : i < 8) :
    (packByte bits k).testBit i = bits (k * 8 + i) := by
  have := orFold_testBit (fun b => bits (k * 8 + b)) 8 0 0 i
  simp only [packByte, List.range_eq_range']
  rw [this]
  simp [h]

/-- Updating and then looking up the same unit id returns the new device
whenever the unit id was present. -/
theorem lookupDevice_updateDevice (s : Devices) (uid : Nat) (d : ModbusDevice) :
    lookupDevice (updateDevice s uid d) uid = (lookupDevice s uid).map (fun _ => d) := by
  induction s with
  | nil => rfl
  | cons p rest ih =>
    obtain ⟨k, dv⟩ := p
    by_cases h : k = uid
    · subst h
      simp [updateDevice, lookupDevice, List.find?_cons]
    · have hb : (k == uid) = false := by simp [h]
      simpa [updateDevice, lookupDevice, List.find?_cons, hb, h] using ih

/-- Reading a single holding register (FC03, quantity 1) returns the stored
value split into its big-endian bytes. -/
theorem readHolding_single (d : ModbusDevice) (addr : Nat)
    (hv : d.holdingRegisters addr ≤ 65535) :
    readHoldingRegisters d [0x03, addr / 256, addr % 256, 0, 1]
      = some (d, [0x03, 2,
          d.holdingRegisters addr / 256, d.holdingRegisters addr % 256]) := by
  have e1 : addr / 256 * 256 + addr % 256 = addr := by omega
  have hlt : d.holdingRegisters addr < 65536 := by omega
  simp [readHoldingRegisters, getU16, e1, pack16, hlt, List.range_succ, List.mapM.loop]

/-- A fixed device used by the hypothesis witnesses below. -/
def sampleDevice : ModbusDevice where
  unitId := 1
  name := "boiler"
  coils := fun j => j % 3 == 0
  discreteInputs := fun j => j % 2 == 0
  holdingRegisters := fun j => j % 100
  inputRegisters := fun j => j % 50

def sampleDevices : Devices := [(1, sampleDevice)]

/-- A device whose banks hold only the dict defaults, mirroring a Python
device whose register dicts are empty. -/
def emptyDevice : ModbusDevice where
  unitId := 1
  name := "empty"
  coils := fun _ => false
  discreteInputs := fun _ => false
  holdingRegisters := fun _ => 0
  inputRegisters := fun _ => 0

/-- C1: Modbus write/read round-trip.  For a configured unit id, writing a
register with FC06 and reading it back with FC03 (quantity 1) returns the
written value, and every framed response echoes the transaction id of its
request. -/
theorem modbus_write_read_roundtrip (s : Devices) (uid : Nat) (d : ModbusDevice)
    (tid1 tid2 pid1 pid2 len1 len2 addr value : Nat)
    (hdev : lookupDevice s uid = some d) (ha : addr ≤ 65535) (hv : value ≤ 65535) :
    (∃ s1 f1 f2,
      handleRequest s ⟨tid1, pid1, len1, uid,
          [0x06, addr / 256, addr % 256, value / 256, value % 256]⟩ = (s1, some f1) ∧
      (handleRequest s1 ⟨tid2, pid2, len2, uid, [0x03, addr / 256, addr % 256, 0, 1]⟩).2
          = some f2 ∧
      f1.transactionId = tid1 ∧ f2.transactionId = tid2 ∧
      f2.pdu = [0x03, 2, value / 256, value % 256]) ∧
    ∀ (s3 : Devices) (req f : MBAPFrame),
      (handleRequest s3 req).2 = some f → f.transactionId = req.transactionId := by
  constructor
  · have e1 : addr / 256 * 256 + addr % 256 = addr := by omega
    have e2 : value / 256 * 256 + value % 256 = value := by omega
    have hw : writeSingleRegister d [0x06, addr / 256, addr % 256, value / 256, value % 256]
        = some ({ d with holdingRegisters := fun j => if j = addr then value
              else d.holdingRegisters j },
            [0x06, addr / 256, addr % 256, value / 256, value % 256]) := by
      simp [writeSingleRegister, getU16, e1, e2]
    set d2 : ModbusDevice := ({ d with holdingRegisters := fun j => if j = addr then value else d.holdingRegisters j }) with hd2
    have hp1 : processRequest s uid [0x06, addr / 256, addr % 256, value / 256, value % 256]
        = (updateDevice s uid d2,
           some [0x06, addr / 256, addr % 256, value / 256, value % 256]) := by
      simp [processRequest, hdev, hw]
    have hdev2 : lookupDevice (updateDevice s uid d2) uid = some d2 := by
      rw [lookupDevice_updateDevice, hdev]; rfl
    have hval : d2.holdingRegisters addr = value := by simp [hd2]
    have hr : readHoldingRegisters d2 [0x03, addr / 256, addr % 256, 0, 1]
        = some (d2, [0x03, 2, value / 256, value % 256]) := by
      rw [readHolding_single d2 addr (by rw [hval]; exact hv), hval]
    have hp2 : processRequest (updateDevice s uid d2) uid [0x03, addr / 256, addr % 256, 0, 1]
        = (updateDevice (updateDevice s uid d2) uid d2,
           some [0x03, 2, value / 256, value % 256]) := by
      simp [processRequest, hdev2, hr]
    refine ⟨updateDevice s uid d2,
      ⟨tid1, pid1, 6, uid, [0x06, addr / 256, addr % 256, value / 256, value % 256]⟩,
      ⟨tid2, pid2, 5, uid, [0x03, 2, value / 256, value % 256]⟩, ?_, ?_, rfl, rfl, rfl⟩
    · simp [handleRequest, hp1]
    · simp [handleRequest, hp2]
  · intro s3 req f hf
    rcases hp : processRequest s3 req.unitId req.pdu with ⟨s2, r⟩
    cases r with
    | none =>
      simp only [handleRequest, hp] at hf
      exact Option.noConfusion hf
    | some rp =>
      simp only [handleRequest, hp, Option.some.injEq] at hf
      rw [← hf]

/-- Witness for C1 at a concrete state: unit id 1 configured, address 123,
value 456. -/
theorem modbus_write_read_roundtrip_witness :
    (lookupDevice sampleDevices 1 = some sampleDevice ∧
     (123 : Nat) ≤ 65535 ∧ (456 : Nat) ≤ 65535) ∧
    ((∃ s1 f1 f2,
      handleRequest sampleDevices ⟨7, 0, 6, 1,
          [0x06, 123 / 256, 123 % 256, 456 / 256, 456 % 256]⟩ = (s1, some f1) ∧
      (handleRequest s1 ⟨8, 0, 6, 1, [0x03, 123 / 256, 123 % 256, 0, 1]⟩).2 = some f2 ∧
      f1.transactionId = 7 ∧ f2.transactionId = 8 ∧
      f2.pdu = [0x03, 2, 456 / 256, 456 % 256]) ∧
    ∀ (s3 : Devices) (req f : MBAPFrame),
      (handleRequest s3 req).2 = some f → f.transactionId = req.transactionId) :=
  ⟨⟨rfl, by decide, by decide⟩,
    modbus_write_read_roundtrip sampleDevices 1 sampleDevice 7 8 0 0 6 6 123 456
      rfl (by decide) (by decide)⟩

/-- C9: Read Coils bit packing.  The FC01 response carries
`ceil(quantity/8)` data bytes and bit i of data byte k is the state of
coil `start + 8k + i`, with bits beyond the quantity zero. -/
theorem modbus_read_coils_bitpack (d : ModbusDevice) (start q : Nat)
    (hs : start ≤ 65535) (hq : q ≤ 2000) :
    ∃ resp : Bytes,
      readCoils d [0x01, start / 256, start % 256, q / 256, q % 256] = some (d, resp) ∧
      resp.length = 2 + (q + 7) / 8 ∧
      resp[0]? = some 0x01 ∧
      resp[1]? = some ((q + 7) / 8) ∧
      ∀ k i, i < 8 → k < (q + 7) / 8 →
        (resp[2 + k]?).map (fun byte => byte.testBit i)
          = some (decide (8 * k + i < q) && d.coils (start + (8 * k + i))) := by
  have e1 : start / 256 * 256 + start % 256 = start := by omega
  have e2 : q / 256 * 256 + q % 256 = q := by omega
  have hbc : ¬((q + 7) / 8 ≥ 256) := by omega
  refine ⟨0x01 :: ((q + 7) / 8) ::
      (List.range ((q + 7) / 8)).map
        (packByte (fun idx => decide (idx < q) && d.coils (start + idx))),
    ?_, by simp only [List.length_cons, List.length_map, List.length_range]; omega,
    by simp, by simp, ?_⟩
  · simp [readCoils, getU16, e1, e2, hbc]
  · intro k i hi hk
    have h2k : 2 + k = k + 2 := by omega
    rw [h2k]
    simp only [List.getElem?_cons_succ, List.getElem?_map, List.getElem?_range hk,
      Option.map_map, Option.map, Option.bind]
    rw [packByte_testBit _ _ _ hi]
    have hmul : k * 8 + i = 8 * k + i := by ring
    rw [hmul]

/-- Witness for C9 at start 5, quantity 17 (3 data bytes, 7 padding bits). -/
theorem modbus_read_coils_bitpack_witness :
    ((5 : Nat) ≤ 65535 ∧ (17 : Nat) ≤ 2000) ∧
    (∃ resp : Bytes,
      readCoils sampleDevice [0x01, 5 / 256, 5 % 256, 17 / 256, 17 % 256]
          = some (sampleDevice, resp) ∧
      resp.length = 2 + (17 + 7) / 8 ∧
      resp[0]? = some 0x01 ∧
      resp[1]? = some ((17 + 7) / 8) ∧
      ∀ k i, i < 8 → k < (17 + 7) / 8 →
        (resp[2 + k]?).map (fun byte => byte.testBit i)
          = some (decide (8 * k + i < 17) && sampleDevice.coils (5 + (8 * k + i)))) :=
  ⟨⟨by decide, by decide⟩,
    modbus_read_coils_bitpack sampleDevice 5 17 (by decide) (by decide)⟩

/-- C4 counterexample: reading holding register 60000 (quantity 1) on a
device with no configured registers returns a normal response carrying the
dict default 0, not an exception PDU with code 0x02 as the claim demands
for an out-of-range address. -/
theorem modbus_no_out_of_range_exception :
    (processRequest [(1, emptyDevice)] 1 [0x03, 234, 96, 0, 1]).2 = some [0x03, 2, 0, 0] ∧
    (processRequest [(1, emptyDevice)] 1 [0x03, 234, 96, 0, 1]).2 ≠ some [0x83, 0x02] := by
  constructor
  · rfl
  · decide

/-- C4 amended: unknown unit id gives exception 0x0B, an unhandled function
code gives 0x01, and an internal processing failure (here: a malformed FC03
request body) gives 0x04; no out-of-range check exists, so any FC03 read of
a single register answers normally with the stored (or default) value. -/
theorem modbus_exception_codes (s : Devices) (uid fc addr : Nat) (rest : Bytes)
    (d : ModbusDevice) :
    (lookupDevice s uid = none →
      (processRequest s uid (fc :: rest)).2 = some [0x80 ||| fc, 0x0B]) ∧
    (lookupDevice s uid = some d →
      fc ≠ 0x01 → fc ≠ 0x02 → fc ≠ 0x03 → fc ≠ 0x04 → fc ≠ 0x05 → fc ≠ 0x06 →
      fc ≠ 0x0F → fc ≠ 0x10 → fc ≠ 0x08 →
      (processRequest s uid (fc :: rest)).2 = some [0x80 ||| fc, 0x01]) ∧
    (lookupDevice s uid = some d → rest.length < 4 →
      (processRequest s uid (0x03 :: rest)).2 = some [0x80 ||| 0x03, 0x04]) ∧
    (lookupDevice s uid = some d → d.holdingRegisters addr ≤ 65535 →
      (processRequest s uid [0x03, addr / 256, addr % 256, 0, 1]).2
        = some [0x03, 2, d.holdingRegisters addr / 256, d.holdingRegisters addr % 256]) := by
  refine ⟨?_, ?_, ?_, ?_⟩
  · intro hnone
    simp [processRequest, hnone]
  · intro hsome h1 h2 h3 h4 h5 h6 h7 h8 h9
    simp [processRequest, hsome, h1, h2, h3, h4, h5, h6, h7, h8, h9]
  · intro hsome hlen
    have hnone3 : getU16 (0x03 :: rest) 3 = none := by
      have h3 : rest[3]? = none := List.getElem?_eq_none (by omega)
      cases h2 : rest[2]? <;> simp [getU16, h2, h3]
    have hfail : readHoldingRegisters d (0x03 :: rest) = none := by
      unfold readHoldingRegisters
      cases hg : getU16 (0x03 :: rest) 1 <;> simp [hg, hnone3]
    simp [processRequest, hsome, hfail]
  · intro hsome hv
    simp [processRequest, hsome, readHolding_single d addr hv]

/-- Witness for the amended C4 at concrete inputs: unit 5 unknown;
function 0x11 unhandled; truncated FC03 body; FC03 read at address 60000. -/
theorem modbus_exception_codes_witness :
    (lookupDevice sampleDevices 5 = none ∧
      (processRequest sampleDevices 5 [0x03, 0, 0, 0, 1]).2 = some [0x80 ||| 0x03, 0x0B]) ∧
    (lookupDevice sampleDevices 1 = some sampleDevice ∧
      (processRequest sampleDevices 1 [0x11, 0]).2 = some [0x80 ||| 0x11, 0x01]) ∧
    (([0, 0] : Bytes).length < 4 ∧
      (processRequest sampleDevices 1 (0x03 :: [0, 0])).2 = some [0x80 ||| 0x03, 0x04]) ∧
    ((processRequest sampleDevices 1 [0x03, 60000 / 256, 60000 % 256, 0, 1]).2
        = some [0x03, 2, sampleDevice.holdingRegisters 60000 / 256,
            sampleDevice.holdingRegisters 60000 % 256]) := by
  refine ⟨⟨rfl, ?_⟩, ⟨rfl, ?_⟩, ⟨by decide, ?_⟩, ?_⟩
  · exact (modbus_exception_codes sampleDevices 5 0x03 0 [0, 0, 0, 1] sampleDevice).1 rfl
  · exact (modbus_exception_codes sampleDevices 1 0x11 0 [0] sampleDevice).2.1 rfl
      (by decide) (by decide) (by decide) (by decide) (by decide) (by decide)
      (by decide) (by decide) (by decide)
  · exact (modbus_exception_codes sampleDevices 1 0x03 0 [0, 0] sampleDevice).2.2.1 rfl
      (by decide)
  · exact (modbus_exception_codes sampleDevices 1 0x03 60000 [] sampleDevice).2.2.2 rfl
      (by decide)

end Modbus

namespace Bridge

/-- The engine splits every topic and pattern string on `/` before
comparing; a token list represents exactly one Python string (join the
tokens with `/`), the empty string being `[""]`.  Topics are therefore
embedded as their split token lists. -/
abbrev Topic := List String

/-- The zip loop of `_topic_matches` (engine.py lines 254-265).  Python
zips the two token lists, truncating to the shorter: the loop returns True
at the first `#` pattern token wherever it occurs, skips `+` tokens, fails
on a literal mismatch, and after the loop the full lengths are compared
(the consumed prefixes have equal length, so comparing the remainders is
the same test). -/
def zipWalk : Topic → Topic → Bool
  | t :: ts, p :: ps =>
    if p = "#" then true
    else if p = "+" then zipWalk ts ps
    else if t ≠ p then false
    else zipWalk ts ps
  | ts, ps => ts.length == ps.length

/-- `_topic_matches` (engine.py lines 248-265): a whole pattern of `#` or
`+` matches anything, otherwise the zip loop runs. -/
def topicMatches (topic pattern : Topic) : Bool :=
  if pattern = ["#"] ∨ pattern = ["+"] then true
  else zipWalk topic pattern

/-- Modelled from the spec: the MQTT reference wildcard semantics the claim
compares against.  Arguments are (filter, topic): a literal token matches
only an equal token, `+` matches exactly one level, and `#` is allowed
only as the final token, where it matches zero or more remaining levels
(a filter with `#` elsewhere matches nothing). -/
def refTopicMatch : Topic → Topic → Bool
  | ["#"], _ => true
  | "#" :: _ :: _, _ => false
  | [], [] => true
  | [], _ :: _ => false
  | _ :: _, [] => false
  | f :: fs, t :: ts => (f == "+" || f == t) && refTopicMatch fs ts

/-- C2: the engine's topic matcher disagrees with the MQTT reference
semantics.  Filter `a/#` must match topic `a` (`#` matches zero levels)
but the code rejects it; a bare `+` must match only single-level topics
but the code accepts the two-level topic `a/b`. -/
theorem topic_match_divergence :
    (topicMatches ["a"] ["a", "#"] = false ∧ refTopicMatch ["a", "#"] ["a"] = true) ∧
    (topicMatches ["a", "b"] ["+"] = true ∧ refTopicMatch ["+"] ["a", "b"] = false) := by
  decide

/-- JSON-shaped Python payload values.  Python None is `null`; Python
floats are modelled by exact rationals.  (The only float arithmetic a
claim touches is 1000 * 0.001; in IEEE double the product also rounds to
exactly 1.0, so the rational model agrees with the float result there.) -/
inductive Val where
  | null : Val
  | bool : Bool → Val
  | int : Int → Val
  | float : Rat → Val
  | str : String → Val
  | list : List Val → Val
  | dict : List (String × Val) → Val

/-- Python dict lookup `d.get(key)` (keys of a real dict are unique, so
first match). -/
def dictGet : List (String × Val) → String → Option Val
  | [], _ => none
  | (k, v) :: rest, key => if k = key then some v else dictGet rest key

/-- Python dict assignment `d[key] = v`: an existing key keeps its
insertion position, a new key is appended. -/
def dictSet : List (String × Val) → String → Val → List (String × Val)
  | [], key, v => [(key, v)]
  | (k, w) :: rest, key, v =>
    if k = key then (k, v) :: rest else (k, w) :: dictSet rest key v

/-- Python `del d[key]`. -/
def dictDel : List (String × Val) → String → List (String × Val)
  | [], _ => []
  | (k, w) :: rest, key => if k = key then rest else (k, w) :: dictDel rest key

/-- Python `key in d` on a dict. -/
def dictHas (d : List (String × Val)) (key : String) : Bool :=
  (dictGet d key).isSome

/-- Numeric view: Python treats bool as 0/1 in arithmetic and comparisons,
int and float compare by value. -/
def toQ : Val → Option Rat
  | .bool b => some (if b then 1 else 0)
  | .int n => some (n : Rat)
  | .float q => some q
  | _ => none

/-- Python int(v): bools and numbers convert (floats truncate toward
zero); None and containers raise TypeError.  Parsing numeric strings is
not exercised by any mapping and is modelled as raising. -/
def pyInt : Val → Option Val
  | .int n => some (.int n)
  | .float q => some (.int (q.num.tdiv (q.den : Int)))
  | .bool b => some (.int (if b then 1 else 0))
  | _ => none

/-- Python float(v), with the same conventions as `pyInt`. -/
def pyFloat : Val → Option Val
  | .int n => some (.float (n : Rat))
  | .float q => some (.float q)
  | .bool b => some (.float (if b then 1 else 0))
  | _ => none

/-- Python bool(v): total, never raises. -/
def pyBool : Val → Val
  | .null => .bool false
  | .bool b => .bool b
  | .int n => .bool (n != 0)
  | .float q => .bool (q != 0)
  | .str s => .bool (s != "")
  | .list xs => .bool (!xs.isEmpty)
  | .dict d => .bool (!d.isEmpty)

/-- The source-value walk of `_transform_data` (engine.py lines 317-320):
`value = result; for part in parts: if isinstance(value, dict): value =
value.get(part)` — a missing key yields None and a non-dict value is kept
unchanged (there is no break). -/
def walkSource (parts : List String) (v : Val) : Val :=
  parts.foldl
    (fun acc part =>
      match acc with
      | .dict d => (dictGet d part).getD .null
      | _ => acc) v

/-- One field mapping of a transform.  Python splits the `source` string
on `.`; the split path embeds it.  `ty` is `mapping.get("type")`. -/
structure FieldMapping where
  source : List String
  target : String
  ty : Option String

/-- Formula expressions are Python strings passed to `eval` with `data`
bound to the current object (engine.py line 342); they are embedded as the
expression AST the configured formulas use: literals, `data[key]` reads
(KeyError on a missing key) and arithmetic over the numeric tower.
String/sequence arithmetic is not used by any mapping and is modelled as
failing. -/
inductive Expr where
  | lit : Val → Expr
  | dataIdx : String → Expr
  | add : Expr → Expr → Expr
  | mul : Expr → Expr → Expr

def asIntOp : Val → Option Int
  | .bool b => some (if b then 1 else 0)
  | .int n => some n
  | _ => none

def mulVal : Val → Val → Option Val
  | .float q, .float r => some (.float (q * r))
  | .float q, v => (asIntOp v).map (fun n => .float (q * (n : Rat)))
  | v, .float r => (asIntOp v).map (fun n => .float ((n : Rat) * r))
  | v, w => do
      let n ← asIntOp v
      let m ← asIntOp w
      some (.int (n * m))

def addVal : Val → Val → Option Val
  | .float q, .float r => some (.float (q + r))
  | .float q, v => (asIntOp v).map (fun n => .float (q + (n : Rat)))
  | v, .float r => (asIntOp v).map (fun n => .float ((n : Rat) + r))
  | v, w => do
      let n ← asIntOp v
      let m ← asIntOp w
      some (.int (n + m))

/-- Evaluate a formula expression against the current object; `none`
models a raised exception (KeyError, TypeError). -/
def evalExpr (data : Val) : Expr → Option Val
  | .lit v => some v
  | .dataIdx key =>
    match data with
    | .dict d => dictGet d key
    | _ => none
  | .add e1 e2 => do addVal (← evalExpr data e1) (← evalExpr data e2)
  | .mul e1 e2 => do mulVal (← evalExpr data e1) (← evalExpr data e2)

structure Formula where
  field : String
  expr : Expr

structure FilterRule where
  field : String
  action : String

structure Transform where
  field_mappings : List FieldMapping
  formulas : List Formula
  filters : List FilterRule

/-- One field-mapping step (engine.py lines 311-333).  A failing int() or
float() conversion raises, aborting the whole transform (`Except.error`);
type tags other than integer/float/boolean perform no coercion. -/
def applyFieldMapping (result : Val) (m : FieldMapping) : Except Unit Val := do
  let value := walkSource m.source result
  let value ←
    match m.ty with
    | some "integer" =>
      match pyInt value with
      | some v => Except.ok v
      | none => Except.error ()
    | some "float" =>
      match pyFloat value with
      | some v => Except.ok v
      | none => Except.error ()
    | some "boolean" => Except.ok (pyBool value)
    | _ => Except.ok value
  match result with
  | .dict d => Except.ok (.dict (dictSet d m.target value))
  | _ => Except.ok result

/-- One formula step (engine.py lines 336-346): the eval is wrapped in a
bare try/except whose handler is `pass`, so a failing evaluation skips the
formula and the transform continues; the field is written only when the
field name is truthy and the object is a dict. -/
def applyFormula (result : Val) (f : Formula) : Val :=
  match evalExpr result f.expr with
  | none => result
  | some v =>
    if f.field ≠ "" then
      match result with
      | .dict d => .dict (dictSet d f.field v)
      | _ => result
    else result

/-- One filter step (engine.py lines 349-357). -/
def applyFilter (result : Val) (fr : FilterRule) : Val :=
  match result with
  | .dict d =>
    if fr.action = "exclude" ∧ dictHas d fr.field then .dict (dictDel d fr.field)
    else if fr.action = "keep" ∧ ¬dictHas d fr.field then .dict (dictSet d fr.field .null)
    else result
  | _ => result

/-- `_transform_data` (engine.py lines 303-359): ordered field mappings
(whose conversion failures raise), then formulas (whose failures are
swallowed), then filters.  A Python-falsy transform returns the data
unchanged. -/
def transformData (data : Val) (t : Option Transform) : Except Unit Val :=
  match t with
  | none => Except.ok data
  | some tr => do
    let r1 ← tr.field_mappings.foldlM applyFieldMapping data
    let r2 := tr.formulas.foldl applyFormula r1
    Except.ok (tr.filters.foldl applyFilter r2)

/-- Character-list helpers for the Python string operators (`in`, `<`)
used by conditions. -/
def startsWithChars : List Char → List Char → Bool
  | [], _ => true
  | _ :: _, [] => false
  | a :: as, b :: bs => a == b && startsWithChars as bs

def containsChars (needle : List Char) : List Char → Bool
  | [] => needle.isEmpty
  | b :: rest => startsWithChars needle (b :: rest) || containsChars needle rest

def charListLt : List Char → List Char → Bool
  | [], [] => false
  | [], _ :: _ => true
  | _ :: _, [] => false
  | a :: as, b :: bs => a < b || (a == b && charListLt as bs)

mutual

/-- Python == between payload values (engine.py `_check_conditions`):
numbers (bool/int/float) compare by value; None, strings, lists and dicts
compare structurally.  Python dict equality is key-based and
order-insensitive; the repository's conditions compare scalars, so the
ordered structural comparison is an adequate model for containers. -/
def valEq : Val → Val → Bool
  | a, b =>
    match toQ a, toQ b with
    | some x, some y => x == y
    | some _, none => false
    | none, some _ => false
    | none, none =>
      match a, b with
      | .null, .null => true
      | .str s, .str t => s == t
      | .list xs, .list ys => valListEq xs ys
      | .dict d, .dict e => valDictEq d e
      | _, _ => false

def valListEq : List Val → List Val → Bool
  | [], [] => true
  | x :: xs, y :: ys => valEq x y && valListEq xs ys
  | _, _ => false

def valDictEq : List (String × Val) → List (String × Val) → Bool
  | [], [] => true
  | (k, x) :: xs, (l, y) :: ys => k == l && valEq x y && valDictEq xs ys
  | _, _ => false

end

/-- Python `a < b`: numbers by value, strings lexicographically, anything
else raises TypeError (`none`). -/
def valLt (a b : Val) : Option Bool :=
  match toQ a, toQ b with
  | some x, some y => some (decide (x < y))
  | _, _ =>
    match a, b with
    | .str s, .str t => some (charListLt s.data t.data)
    | _, _ => none

def valLe (a b : Val) : Option Bool :=
  match toQ a, toQ b with
  | some x, some y => some (decide (x ≤ y))
  | _, _ =>
    match a, b with
    | .str s, .str t => some (charListLt s.data t.data || s == t)
    | _, _ => none

/-- Python `x in container`: list membership by ==, substring test for
strings, key membership for dicts (non-string scalars are simply absent,
unhashable operands raise); anything else raises TypeError. -/
def valIn (x container : Val) : Option Bool :=
  match container with
  | .list ys => some (ys.any (valEq x))
  | .str t =>
    match x with
    | .str s => some (containsChars s.data t.data)
    | _ => none
  | .dict d =>
    match x with
    | .str s => some (dictHas d s)
    | .list _ => none
    | .dict _ => none
    | _ => some false
  | _ => none

/-- Python str() of a payload value, as used by the `contains` operator.
The textual form of floats and containers is not exercised by any
configured condition and is treated as failing. -/
def pyStr : Val → Option String
  | .str s => some s
  | .int n => some (toString n)
  | .bool b => some (if b then "True" else "False")
  | .null => some "None"
  | _ => none

/-- One bridge condition (engine.py lines 269-272): dot-split field path,
operator (default eq) and comparison value. -/
structure Cond where
  field : List String
  op : String
  value : Val

/-- The condition field walk (engine.py lines 275-281): unlike the
transform walk this one breaks with None at the first non-dict value. -/
def walkCondField : List String → Val → Val
  | [], v => v
  | part :: rest, v =>
    match v with
    | .dict d => walkCondField rest ((dictGet d part).getD .null)
    | _ => .null

/-- One condition test (engine.py lines 283-299).  Each operator branch is
guarded by the operator name; an unknown operator matches no branch and the
condition passes.  A TypeError raised by an ordering or membership test
propagates (`Except.error`). -/
def condHolds (data : Val) (c : Cond) : Except Unit Bool :=
  let dv := walkCondField c.field data
  if c.op = "eq" then Except.ok (valEq dv c.value)
  else if c.op = "ne" then Except.ok (!valEq dv c.value)
  else if c.op = "gt" then
    match valLt c.value dv with
    | some b => Except.ok b
    | none => Except.error ()
  else if c.op = "lt" then
    match valLt dv c.value with
    | some b => Except.ok b
    | none => Except.error ()
  else if c.op = "gte" then
    match valLe c.value dv with
    | some b => Except.ok b
    | none => Except.error ()
  else if c.op = "lte" then
    match valLe dv c.value with
    | some b => Except.ok b
    | none => Except.error ()
  else if c.op = "in" then
    match valIn dv c.value with
    | some b => Except.ok b
    | none => Except.error ()
  else if c.op = "contains" then
    match c.value, pyStr dv with
    | .str v, some s => Except.ok (containsChars v.data s.data)
    | _, _ => Except.error ()
  else Except.ok true

/-- `_check_conditions` (engine.py lines 267-301): AND over the list with
early exit at the first failing condition. -/
def checkConditions (conds : List Cond) (data : Val) : Except Unit Bool :=
  match conds with
  | [] => Except.ok true
  | c :: rest => do
    let b ← condHolds data c
    if b then checkConditions rest data else Except.ok false

inductive Direction where
  | sourceToTarget
  | targetToSource
  | bidirectional
deriving DecidableEq

/-- One bridge mapping (engine.py lines 34-52), topics embedded as their
split token lists. -/
structure Mapping where
  source_protocol : String
  source_topic : Topic
  target_protocol : String
  target_topic : Topic
  direction : Direction
  transform : Option Transform

/-- Python `A == B and topic` yields False or the topic string, and
`x or y` the first truthy operand; False and the empty string are both
falsy, collapsed to `none` (the empty topic string is the token list
`[""]`). -/
def pyAndTopic (b : Bool) (t : Topic) : Option Topic :=
  if b ∧ t ≠ [""] then some t else none

/-- `_matches_mapping` (engine.py lines 221-246): the direction check
compares protocol and topic for exact equality, then the wildcard check
runs against whichever side's topic the protocol selects (the Python
and/or truthiness dance included). -/
def matchesMapping (protocol : String) (topic : Topic) (m : Mapping) : Bool :=
  let directionOk : Bool :=
    match m.direction with
    | .targetToSource => protocol == m.target_protocol && topic == m.target_topic
    | .sourceToTarget => protocol == m.source_protocol && topic == m.source_topic
    | .bidirectional =>
      (protocol == m.source_protocol && topic == m.source_topic) ||
      (protocol == m.target_protocol && topic == m.target_topic)
  if !directionOk then false
  else
    match (pyAndTopic (m.source_protocol == protocol) m.source_topic).orElse
        (fun _ => pyAndTopic (m.target_protocol == protocol) m.target_topic) with
    | some pat => topicMatches topic pat
    | none => true

structure BridgeRule where
  name : String
  mappings : List Mapping
  enabled : Bool
  conditions : List Cond

structure Message where
  protocol : String
  topic : Topic
  data : Val

/-- One `_forward_message` call (engine.py lines 361-385): the delivery
intent handed to the target adapter. -/
structure Forward where
  protocol : String
  topic : Topic
  data : Val

/-- The observable outcome of routing one message: the forwards performed
so far, the statistics increments, and whether an exception escaped
`_route_message`. -/
structure RouteOut where
  forwards : List Forward
  forwardedCount : Nat
  transformedCount : Nat
  errored : Bool

def emptyRouteOut : RouteOut := ⟨[], 0, 0, false⟩

/-- The mapping loop of `_route_message` (engine.py lines 205-219).  A
raised exception (condition TypeError or transform failure) aborts the
whole loop immediately, but forwards already performed remain performed. -/
def routeMappings (msg : Message) (conds : List Cond) :
    List Mapping → RouteOut → RouteOut
  | [], acc => acc
  | m :: rest, acc =>
    if matchesMapping msg.protocol msg.topic m then
      match (if conds.isEmpty then Except.ok true else checkConditions conds msg.data) with
      | .error _ => { acc with errored := true }
      | .ok condOk =>
        if !condOk then routeMappings msg conds rest acc
        else
          match transformData msg.data m.transform with
          | .error _ => { acc with errored := true }
          | .ok td =>
            routeMappings msg conds rest
              { acc with
                forwards := acc.forwards ++ [⟨m.target_protocol, m.target_topic, td⟩],
                forwardedCount := acc.forwardedCount + 1,
                transformedCount :=
                  acc.transformedCount + (if m.transform.isSome then 1 else 0) }
    else routeMappings msg conds rest acc

/-- The bridge loop of `_route_message` (engine.py lines 201-219). -/
def routeBridges (msg : Message) : List BridgeRule → RouteOut → RouteOut
  | [], acc => acc
  | b :: rest, acc =>
    if !b.enabled then routeBridges msg rest acc
    else
      let acc2 := routeMappings msg b.conditions b.mappings acc
      if acc2.errored then acc2 else routeBridges msg rest acc2

/-- `_route_message` plus the enclosing catch of `_process_messages`
(engine.py lines 173-219): a message without protocol or topic is ignored;
an exception escaping the routing increments the errors statistic once and
drops the rest of the work for this message. -/
def processMessage (bridges : List BridgeRule) (msg : Message) : RouteOut × Nat :=
  if msg.protocol == "" || msg.topic == [""] then (emptyRouteOut, 0)
  else
    let out := routeBridges msg bridges emptyRouteOut
    (out, if out.errored then 1 else 0)

/-- The seed-scenario transform (spec seed 5, engine.py example mapping):
field mapping value -> sensor_value as float, formula
kwh = data times 0.001.  The Python float literal 0.001 is modelled
as the exact rational 1/1000; the concrete product 1000 * 0.001 is
exactly 1.0 in IEEE double as well. -/
def seedTransform : Transform where
  field_mappings := [⟨["value"], "sensor_value", some "float"⟩]
  formulas := [⟨"kwh", .mul (.dataIdx "value") (.lit (.float (mkRat 1 1000)))⟩]
  filters := []

def seedInput : Val := .dict [("value", .int 1000), ("address", .int 4)]

/-- The key list of a transformed object, used to state C5. -/
def outputKeys : Except Unit Val → List String
  | .ok (.dict d) => d.map Prod.fst
  | _ => []

/-- C5 counterexample: on the seed input the transform mutates the input
dict in place, so the original key value survives next to the three
claimed keys — the output is not exactly the claimed three-key object. -/
theorem transform_seed_counterexample :
    outputKeys (transformData seedInput (some seedTransform))
      = ["value", "address", "sensor_value", "kwh"] ∧
    outputKeys (transformData seedInput (some seedTransform))
      ≠ ["sensor_value", "address", "kwh"] := by
  exact ⟨rfl, by decide⟩

/-- C5 amended: the seed transform produces the object with keys
value:1000 (int, untouched), address:4, sensor_value:1000.0 and kwh:1.0,
in insertion order. -/
theorem transform_seed_scenario :
    transformData seedInput (some seedTransform)
      = Except.ok (.dict [("value", .int 1000), ("address", .int 4),
          ("sensor_value", .float 1000), ("kwh", .float 1)]) := by
  have h1 : ((1000 : Int) : Rat) = (1000 : Rat) := by norm_num
  have hq : (1000 : Rat) * (mkRat 1 1000) = (1 : Rat) := by
    rw [Rat.mkRat_eq_div]
    norm_num
  have hmul : mulVal (.int 1000) (.float (mkRat 1 1000)) = some (.float 1) := by
    simp [mulVal, asIntOp, hq]
  have hfm : applyFieldMapping seedInput ⟨["value"], "sensor_value", some "float"⟩
      = Except.ok (.dict [("value", .int 1000), ("address", .int 4),
          ("sensor_value", .float 1000)]) := by
    simp [applyFieldMapping, seedInput, walkSource, dictGet, pyFloat, dictSet, h1,
      Except.bind, Except.instMonad, Bind.bind, Pure.pure, Except.pure]
  have hform : applyFormula
      (.dict [("value", .int 1000), ("address", .int 4), ("sensor_value", .float 1000)])
      ⟨"kwh", .mul (.dataIdx "value") (.lit (.float (mkRat 1 1000)))⟩
      = .dict [("value", .int 1000), ("address", .int 4),
          ("sensor_value", .float 1000), ("kwh", .float 1)] := by
    simp [applyFormula, evalExpr, dictGet, hmul, dictSet]
  simp [transformData, seedTransform, List.foldlM, List.foldl, hfm, hform,
    Except.bind, Except.instMonad, Bind.bind, Pure.pure, Except.pure]

/-- A transform whose only step is a formula reading a missing key: the
eval raises KeyError, which `_transform_data` swallows. -/
def failFormulaTransform : Transform where
  field_mappings := []
  formulas := [⟨"x", .dataIdx "missing"⟩]
  filters := []

/-- A transform whose only step is a field mapping that float()-converts
a missing source (None), raising TypeError. -/
def failFieldTransform : Transform where
  field_mappings := [⟨["nope"], "x", some "float"⟩]
  formulas := []
  filters := []

def c6Mapping : Mapping where
  source_protocol := "mqtt"
  source_topic := ["t"]
  target_protocol := "coap"
  target_topic := ["u"]
  direction := .sourceToTarget
  transform := some failFormulaTransform

def c6FieldMapping : Mapping where
  source_protocol := "mqtt"
  source_topic := ["t"]
  target_protocol := "coap"
  target_topic := ["u"]
  direction := .sourceToTarget
  transform := some failFieldTransform

def c6Bridge : BridgeRule := ⟨"b", [c6Mapping], true, []⟩

def c6Msg : Message := ⟨"mqtt", ["t"], .dict [("value", .int 1)]⟩

/-- C6 counterexample: a failing formula step does not skip the mapping —
the message is still forwarded (with the formula simply dropped) and the
errors statistic stays 0, contradicting the claimed atomicity. -/
theorem transform_failure_not_atomic :
    (processMessage [c6Bridge] c6Msg).1.forwards
      = [⟨"coap", ["u"], .dict [("value", .int 1)]⟩] ∧
    (processMessage [c6Bridge] c6Msg).2 = 0 ∧
    (processMessage [c6Bridge] c6Msg).1.errored = false := by
  exact ⟨rfl, rfl, rfl⟩

/-- C6 amended: a failing formula is silently swallowed (the formula is
skipped, the object is otherwise unchanged), whereas a failing
field-mapping conversion raises: the mapping forwards nothing, routing
aborts, and the errors statistic is incremented once. -/
theorem transform_failure_semantics (data : Val) (f : Formula)
    (name : String) (m : Mapping) (msg : Message)
    (hfail : evalExpr data f.expr = none)
    (hp : msg.protocol ≠ "") (ht : msg.topic ≠ [""])
    (hmatch : matchesMapping msg.protocol msg.topic m = true)
    (herr : transformData msg.data m.transform = .error ()) :
    applyFormula data f = data ∧
    (processMessage [⟨name, [m], true, []⟩] msg).1.forwards = [] ∧
    (processMessage [⟨name, [m], true, []⟩] msg).1.errored = true ∧
    (processMessage [⟨name, [m], true, []⟩] msg).2 = 1 := by
  have hform : applyFormula data f = data := by
    unfold applyFormula
    rw [hfail]
  have hpb : (msg.protocol == "") = false := by
    simp [hp]
  have htb : (msg.topic == [""]) = false := by
    simp [ht]
  have hroute : routeBridges msg [⟨name, [m], true, []⟩] ⟨[], 0, 0, false⟩
      = ⟨[], 0, 0, true⟩ := by
    simp [routeBridges, routeMappings, hmatch, herr]
  refine ⟨hform, ?_, ?_, ?_⟩ <;>
    simp [processMessage, hpb, htb, emptyRouteOut, hroute]

/-- Witness for the amended C6: the concrete failing formula and failing
field-mapping configurations above. -/
theorem transform_failure_semantics_witness :
    (evalExpr (.dict []) (Formula.mk "x" (.dataIdx "missing")).expr = none ∧
     (c6Msg.protocol ≠ "") ∧ (c6Msg.topic ≠ [""]) ∧
     matchesMapping c6Msg.protocol c6Msg.topic c6FieldMapping = true ∧
     transformData c6Msg.data c6FieldMapping.transform = .error ()) ∧
    (applyFormula (.dict []) (Formula.mk "x" (.dataIdx "missing")) = .dict [] ∧
     (processMessage [⟨"b2", [c6FieldMapping], true, []⟩] c6Msg).1.forwards = [] ∧
     (processMessage [⟨"b2", [c6FieldMapping], true, []⟩] c6Msg).1.errored = true ∧
     (processMessage [⟨"b2", [c6FieldMapping], true, []⟩] c6Msg).2 = 1) := by
  refine ⟨⟨rfl, by decide, by decide, rfl, rfl⟩, ?_⟩
  exact transform_failure_semantics (.dict []) (Formula.mk "x" (.dataIdx "missing"))
    "b2" c6FieldMapping c6Msg rfl (by decide) (by decide) rfl rfl

end Bridge

namespace Rules

/-- The operators `Condition.evaluate` dispatches on (rules.py lines
71-92).  Enum members declared but absent from the dispatch (in, not_in,
starts_with, ends_with, not_contains) hit the final `return False` and are
grouped as `unimplemented`.  The regex operator delegates to the re
module, outside this embedding; rules built from the modelled operators
are covered. -/
inductive ROp where
  | eq
  | ne
  | gt
  | lt
  | gte
  | lte
  | contains
  | between
  | isNull
  | isNotNull
  | unimplemented
deriving DecidableEq

/-- `Condition` (rules.py lines 50-56), the dotted field pre-split as in
the bridge embedding; `second_value` defaults to None. -/
structure RCondition where
  field : List String
  op : ROp
  value : Bridge.Val
  second_value : Bridge.Val

/-- The condition field walk (rules.py lines 60-68): dict lookup per part
(a missing key yields None, and any later part on a non-dict value breaks
with None).  The getattr branch applies to Python objects, which JSON
payloads do not contain. -/
def walkField : List String → Bridge.Val → Bridge.Val
  | [], v => v
  | part :: rest, v =>
    match v with
    | .dict d => walkField rest ((Bridge.dictGet d part).getD .null)
    | _ => .null

/-- `Condition.evaluate` (rules.py lines 58-97): the dispatch runs inside
try/except returning False on any comparison exception, so every branch is
total here (a raising comparison becomes false via `Option.getD`). -/
def conditionEvaluate (c : RCondition) (data : Bridge.Val) : Bool :=
  let fv := walkField c.field data
  match c.op with
  | .eq => Bridge.valEq fv c.value
  | .ne => !Bridge.valEq fv c.value
  | .gt => (Bridge.valLt c.value fv).getD false
  | .lt => (Bridge.valLt fv c.value).getD false
  | .gte => (Bridge.valLe c.value fv).getD false
  | .lte => (Bridge.valLe fv c.value).getD false
  | .contains =>
    match Bridge.pyStr c.value, Bridge.pyStr fv with
    | some v, some s => Bridge.containsChars v.data s.data
    | _, _ => false
  | .between =>
    (Bridge.valLe c.value fv).getD false && (Bridge.valLe fv c.second_value).getD false
  | .isNull =>
    match fv with
    | .null => true
    | _ => false
  | .isNotNull =>
    match fv with
    | .null => false
    | _ => true
  | .unimplemented => false

/-- Action kinds: only trigger_rule transfers control; log,
publish_message, set_value, send_alert, webhook, delay, throttle and
create_event return after logging or sleeping and are grouped as `basic`
(exceptions they raise are swallowed by the per-action try/except and do
not change control flow either). -/
inductive RAction where
  | triggerRule : String → RAction
  | basic : RAction

/-- `Action` (rules.py lines 100-105): kind plus the enabled flag checked
at the top of execute. -/
structure Action where
  kind : RAction
  enabled : Bool

/-- `Rule` (rules.py lines 150-162).  Time is modelled in whole seconds as
Nat; `datetime.utcnow() - last_triggered < timedelta(seconds=T)` becomes
`now - t0 < T` (truncated subtraction agrees: a negative Python timedelta
also compares below a positive T). -/
structure Rule where
  name : String
  enabled : Bool
  priority : Int
  conditions : List RCondition
  condition_logic : String
  actions : List Action
  cooldown_seconds : Nat
  last_triggered : Option Nat
  trigger_count : Nat

/-- `Rule.evaluate` (rules.py lines 164-181): disabled rules are false;
then the cooldown window check (before any condition is touched); an empty
condition list is true; AND/OR combine the conditions; any other
condition_logic is false. -/
def Rule.evaluate (r : Rule) (now : Nat) (data : Bridge.Val) : Bool :=
  if !r.enabled then false
  else if (match r.last_triggered with
      | some t0 => decide (0 < r.cooldown_seconds) && decide (now - t0 < r.cooldown_seconds)
      | none => false) then false
  else if r.conditions.isEmpty then true
  else if r.condition_logic = "AND" then
    r.conditions.all (fun c => conditionEvaluate c data)
  else if r.condition_logic = "OR" then
    r.conditions.any (fun c => conditionEvaluate c data)
  else false

/-- The per-rule body of `evaluate_data` (rules.py lines 256-266): when
the rule evaluates true its trigger_count increments and last_triggered is
set to now, then the actions run. -/
def evalStep (r : Rule) (now : Nat) (data : Bridge.Val) : Rule :=
  if r.evaluate now data then
    { r with trigger_count := r.trigger_count + 1, last_triggered := some now }
  else r

/-- The engine's rules dict, as an association list (name -> rule). -/
abbrev RuleTable := List (String × Rule)

def lookupRule (rules : RuleTable) (name : String) : Option Rule :=
  (rules.find? (fun p => p.1 == name)).map Prod.snd

def updateRule (rules : RuleTable) (name : String) (r : Rule) : RuleTable :=
  rules.map (fun p => if p.1 == name then (p.1, r) else p)

/-- The state effect of `RulesEngine.trigger` (rules.py lines 268-281): an
unknown or disabled rule is ignored; otherwise trigger_count and
last_triggered are updated unconditionally — there is no cooldown check on
this path — and the actions then run. -/
def trigger (rules : RuleTable) (name : String) (now : Nat) : RuleTable :=
  match lookupRule rules name with
  | none => rules
  | some r =>
    if !r.enabled then rules
    else updateRule rules name
      { r with trigger_count := r.trigger_count + 1, last_triggered := some now }

/-- Updating and looking up the same rule name. -/
theorem lookupRule_updateRule (rules : RuleTable) (name : String) (r : Rule) :
    lookupRule (updateRule rules name r) name
      = (lookupRule rules name).map (fun _ => r) := by
  induction rules with
  | nil => rfl
  | cons p rest ih =>
    obtain ⟨k, rv⟩ := p
    by_cases h : k = name
    · subst h
      simp [updateRule, lookupRule, List.find?_cons]
    · have hb : (k == name) = false := by simp [h]
      simpa [updateRule, lookupRule, List.find?_cons, hb, h] using ih

mutual

/-- `Action.execute` over an action list (rules.py lines 107-147), with a
recursion budget: `none` means the execution is still running after that
many nested trigger calls.  Only trigger_rule transfers control; the
rule-record updates trigger performs never change enabled or actions, so
the rule table is passed through unchanged. -/
def execActions (rules : RuleTable) : Nat → List Action → Option Unit
  | _, [] => some ()
  | fuel, a :: rest =>
    if a.enabled then
      match a.kind with
      | .triggerRule rn =>
        match execTrigger rules fuel rn with
        | none => none
        | some _ => execActions rules fuel rest
      | .basic => execActions rules fuel rest
    else execActions rules fuel rest
termination_by fuel l => (fuel, l.length + 1)

/-- The control flow of `RulesEngine.trigger` (rules.py lines 268-281): an
unknown or disabled rule returns immediately; otherwise the rule's actions
run in order.  The code maintains no recursion depth counter at all. -/
def execTrigger (rules : RuleTable) : Nat → String → Option Unit
  | 0, _ => none
  | fuel + 1, name =>
    match lookupRule rules name with
    | none => some ()
    | some r => if !r.enabled then some () else execActions rules fuel r.actions
termination_by fuel _ => (fuel, 0)

end

/-- An enabled rule with a 10 s cooldown that last fired at t = 100. -/
def cooldownRule : Rule where
  name := "r"
  enabled := true
  priority := 0
  conditions := []
  condition_logic := "AND"
  actions := []
  cooldown_seconds := 10
  last_triggered := some 100
  trigger_count := 1

/-- C3 counterexample: at time 101, one second after the last trigger and
well inside the 10 s cooldown, `RulesEngine.trigger` re-fires the rule —
trigger_count increments and last_triggered moves — because that path
never checks the cooldown. -/
theorem cooldown_not_enforced_on_trigger :
    (lookupRule (trigger [("r", cooldownRule)] "r" 101) "r").map Rule.trigger_count
      = some 2 ∧
    (lookupRule (trigger [("r", cooldownRule)] "r" 101) "r").map Rule.last_triggered
      = some (some 101) ∧
    101 - 100 < cooldownRule.cooldown_seconds := by
  exact ⟨rfl, rfl, by decide⟩

/-- C3 amended: on the evaluation path a rule under cooldown is false for
every condition list and condition logic (its conditions are never
consulted), so evaluate_data cannot re-fire it within the window; whereas
RulesEngine.trigger performs no cooldown check and re-fires an enabled
rule immediately, bumping trigger_count and last_triggered. -/
theorem cooldown_semantics (r : Rule) (now t0 : Nat) (data : Bridge.Val)
    (rules : RuleTable) (name : String)
    (hl : r.last_triggered = some t0) (hT : 0 < r.cooldown_seconds)
    (hwin : now - t0 < r.cooldown_seconds)
    (hlook : lookupRule rules name = some r) (hen : r.enabled = true) :
    (∀ cs logic, Rule.evaluate
        { r with conditions := cs, condition_logic := logic } now data = false) ∧
    evalStep r now data = r ∧
    lookupRule (trigger rules name now) name
      = some { r with trigger_count := r.trigger_count + 1, last_triggered := some now } := by
  have heval : ∀ cs logic, Rule.evaluate
      { r with conditions := cs, condition_logic := logic } now data = false := by
    intro cs logic
    by_cases he : r.enabled <;> simp [Rule.evaluate, hl, hT, hwin, he]
  refine ⟨heval, ?_, ?_⟩
  · have h0 : Rule.evaluate r now data = false := by
      have := heval r.conditions r.condition_logic
      simpa using this
    simp [evalStep, h0]
  · simp [trigger, hlook, hen, lookupRule_updateRule]

/-- Witness for the amended C3 at the concrete rule above, now = 105. -/
theorem cooldown_semantics_witness :
    (cooldownRule.last_triggered = some 100 ∧ 0 < cooldownRule.cooldown_seconds ∧
     105 - 100 < cooldownRule.cooldown_seconds ∧
     lookupRule [("r", cooldownRule)] "r" = some cooldownRule ∧
     cooldownRule.enabled = true) ∧
    ((∀ cs logic, Rule.evaluate
        { cooldownRule with conditions := cs, condition_logic := logic } 105
          (.dict []) = false) ∧
     evalStep cooldownRule 105 (.dict []) = cooldownRule ∧
     lookupRule (trigger [("r", cooldownRule)] "r" 105) "r"
       = some { cooldownRule with trigger_count := cooldownRule.trigger_count + 1, last_triggered := some 105 }) :=
  ⟨⟨rfl, by decide, by decide, rfl, rfl⟩,
    cooldown_semantics cooldownRule 105 100 (.dict []) [("r", cooldownRule)] "r"
      rfl (by decide) (by decide) rfl rfl⟩

/-- The self-triggering rule: its single action is trigger_rule R. -/
def selfRule : Rule where
  name := "R"
  enabled := true
  priority := 0
  conditions := []
  condition_logic := "AND"
  actions := [⟨.triggerRule "R", true⟩]
  cooldown_seconds := 0
  last_triggered := none
  trigger_count := 0

def selfRules : RuleTable := [("R", selfRule)]

/-- C7: there is no recursion-depth bound of 16 (nor any other): executing
trigger_rule on the self-triggering rule R never completes within any
recursion budget, so in the model the execution diverges (in CPython it
runs until the interpreter's ~1000-frame stack limit raises
RecursionError, which the per-action except swallows — still no depth-16
cycle protection). -/
theorem trigger_rule_no_cycle_protection :
    ∀ fuel : Nat, execTrigger selfRules fuel "R" = none := by
  intro fuel
  induction fuel with
  | zero => simp [execTrigger]
  | succ n ih =>
    have hlook : lookupRule selfRules "R" = some selfRule := rfl
    have hen : selfRule.enabled = true := rfl
    have hact : selfRule.actions = [⟨.triggerRule "R", true⟩] := rfl
    simp [execTrigger, hlook, hen, hact, execActions, ih]

end Rules

namespace FaultInjector

/-- `FaultType` (fault_injector.py lines 16-27). -/
inductive FaultType where
  | packetLoss
  | latencySpike
  | jitter
  | corruption
  | reordering
  | duplication
  | connectionDrop
  | protocolError
  | bandwidthLimit
  | deviceOffline
deriving DecidableEq

/-- `Fault` (fault_injector.py lines 30-42).  The probability is a Python
float in [0,1], modelled as a rational; parameters is the dict of numeric
options. -/
structure Fault where
  id : String
  fault_type : FaultType
  target : String
  target_id : Option String
  parameters : List (String × Bridge.Val)
  enabled : Bool
  probability : Rat
  duration_seconds : Option Nat

/-- The injector's faults dict (id -> fault). -/
abbrev Faults := List (String × Fault)

def lookupFault (fs : Faults) (fid : String) : Option Fault :=
  (fs.find? (fun p => p.1 == fid)).map Prod.snd

/-- `should_modify_packet` (fault_injector.py lines 211-230), the Bernoulli
draw `random.random()` passed in as an explicit argument.  An unknown or
disabled fault returns (False, None); packet_loss, connection_drop and
device_offline return (False, None) before the probability is even drawn;
otherwise, on a successful draw, latency_spike / jitter / corruption /
duplication return their modification dicts, and anything else falls
through to (False, None). -/
def shouldModifyPacket (fs : Faults) (fid : String) (rand : Rat) :
    Bool × Option (List (String × Bridge.Val)) :=
  match lookupFault fs fid with
  | none => (false, none)
  | some fault =>
    if !fault.enabled then (false, none)
    else if fault.fault_type = .packetLoss ∨ fault.fault_type = .connectionDrop ∨
        fault.fault_type = .deviceOffline then (false, none)
    else if rand < fault.probability then
      if fault.fault_type = .latencySpike then
        (true, some [("delay_ms",
          (Bridge.dictGet fault.parameters "delay_ms").getD (.int 1000))])
      else if fault.fault_type = .jitter then
        (true, some [("jitter_ms",
          (Bridge.dictGet fault.parameters "jitter_ms").getD (.int 100))])
      else if fault.fault_type = .corruption then
        (true, some [("corrupt", .bool true)])
      else if fault.fault_type = .duplication then
        (true, some [("duplicate", .bool true)])
      else (false, none)
    else (false, none)

/-- The claim's fault: packet_loss, enabled, probability 1.0, percent 100,
targeting the bridge. -/
def plFault : Fault where
  id := "pl"
  fault_type := .packetLoss
  target := "bridge"
  target_id := none
  parameters := [("percent", .int 100)]
  enabled := true
  probability := 1
  duration_seconds := none

/-- C8: the synchronous hook never returns a drop intent for a packet_loss
fault — for every random draw it returns (False, None), because
packet_loss is in the early-exit list checked before the probability draw;
so the enabled probability-1.0 percent-100 fault drops nothing on the
bridge/capture path. -/
theorem packet_loss_hook_returns_no_drop :
    ∀ rand : Rat, shouldModifyPacket [("pl", plFault)] "pl" rand = (false, none) := by
  intro rand
  rfl

end FaultInjector

namespace Capture

/-- `CapturedPacket` (capturer.py lines 40-55), restricted to the fields
`PacketFilter` consults (timestamp, payload, decoded and hex_data are
never read by the filter); the protocol enum value is carried as its
string. -/
structure CapturedPacket where
  id : String
  direction : String
  source : String
  destination : String
  source_port : Nat
  destination_port : Nat
  protocol : String
  length : Nat
  info : String

/-- A filter-rule condition dict (capturer.py lines 337-363): each key is
optional. -/
structure FilterCondition where
  protocol : Option String
  port : Option Nat
  address : Option String
  keyword : Option String
  length_min : Option Nat
  length_max : Option Nat

/-- A filter rule as stored by `add_rule` (capturer.py lines 322-328). -/
structure FRule where
  name : String
  condition : FilterCondition
  action : String

/-- `PacketFilter._match_condition` (capturer.py lines 337-363): every
present key must pass, each failing check returning False early —
equivalently the conjunction of the present checks. -/
def matchCondition (p : CapturedPacket) (c : FilterCondition) : Bool :=
  (match c.protocol with
    | some pr => p.protocol == pr
    | none => true) &&
  (match c.port with
    | some po => p.destination_port == po
    | none => true) &&
  (match c.address with
    | some a => p.source == a || p.destination == a
    | none => true) &&
  (match c.keyword with
    | some kw => Bridge.containsChars kw.data p.info.data
    | none => true) &&
  (match c.length_min with
    | some m => decide (m ≤ p.length)
    | none => true) &&
  (match c.length_max with
    | some m => decide (p.length ≤ m)
    | none => true)

/-- `PacketFilter.match` (capturer.py lines 330-335): linear scan, the
first rule whose condition matches decides keep/drop, and with no match
the packet is kept. -/
def filterMatch (rules : List FRule) (p : CapturedPacket) : Bool :=
  match rules with
  | [] => true
  | r :: rest =>
    if matchCondition p r.condition then r.action == "keep"
    else filterMatch rest p

/-- C10: the filter's default policy is keep — when no rule's condition
matches the packet, match returns True; and a False verdict can only come
from an explicitly matching rule whose action is not keep. -/
theorem packet_filter_default_keep (rules : List FRule) (p : CapturedPacket) :
    ((∀ r ∈ rules, matchCondition p r.condition = false) → filterMatch rules p = true) ∧
    (filterMatch rules p = false →
      ∃ r ∈ rules, matchCondition p r.condition = true ∧ r.action ≠ "keep") := by
  induction rules with
  | nil =>
    refine ⟨fun _ => rfl, fun h => absurd h ?_⟩
    simp [filterMatch]
  | cons r rest ih =>
    constructor
    · intro hall
      have hr : matchCondition p r.condition = false := hall r (by simp)
      simp only [filterMatch, hr, if_false]
      exact ih.1 (fun x hx => hall x (by simp [hx]))
    · intro hfalse
      by_cases hm : matchCondition p r.condition
      · refine ⟨r, by simp, hm, ?_⟩
        simp only [filterMatch, hm, if_true] at hfalse
        simpa using hfalse
      · have hrest : filterMatch rest p = false := by
          simpa [filterMatch, hm] using hfalse
        obtain ⟨x, hx, hxm, hxk⟩ := ih.2 hrest
        exact ⟨x, by simp [hx], hxm, hxk⟩

/-- A concrete packet and a non-matching drop rule for the C10 witness. -/
def samplePacket : CapturedPacket :=
  ⟨"p1", "inbound", "10.0.0.1", "10.0.0.2", 1000, 502, "modbus", 12, "read"⟩

def sampleFilterRules : List FRule :=
  [⟨"drop-mqtt", ⟨some "mqtt", none, none, none, none, none⟩, "drop"⟩]

/-- Witness for C10: the drop rule's condition does not match the Modbus
packet, and the filter keeps it. -/
theorem packet_filter_default_keep_witness :
    (∀ r ∈ sampleFilterRules, matchCondition samplePacket r.condition = false) ∧
    filterMatch sampleFilterRules samplePacket = true :=
  ⟨by decide, (packet_filter_default_keep sampleFilterRules samplePacket).1 (by decide)⟩

end Capture

end IoTSim
